import Mathlib

/-!
# pubsub-sns: the SNS -> Pub/Sub relay handler

A shallow embedding of `src/main.go`.  The handler `PublishSNSMessage` is a
sequential function of the inbound request; everything it reaches outside the
repository (the JSON decoder, the outbound HTTP client, the Pub/Sub client and
the Unicode case table) is an oracle carried by `Env`.  The handler returns
what it wrote on the `http.ResponseWriter` together with the ordered trace of
its observable actions: log lines, outbound requests and publishes.

Conventions of the embedding:
* a Go `string` is a Lean `String`, that is Unicode text; an `error` is its
  message;
* a log line is the formatted message, without the prefix the `log` package
  puts in front of it;
* the body recorded for a response is the text handed to `http.Error`;
* an outbound request is recorded when `client.Do` is called, a publish when
  `Publish` is called, whether or not the call succeeds.
-/

namespace PubSubSNS

/-! ## Data model -/

/-- The record `publishRequest` of `main.go`, one string per JSON field. -/
structure publishRequest where
  /-- The field `Type`; the name is reserved in Lean. -/
  Type_ : String
  MessageID : String
  Token : String
  TopicArn : String
  Subject : String
  Message : String
  SubscribeURL : String
  Timestamp : String
  SignatureVersion : String
  Signature : String
  SigningCertURL : String
  UnsubscribeURL : String
  deriving DecidableEq, Repr

/-- The zero value `publishRequest{}`: every field is the empty string. -/
def publishRequest.zero : publishRequest :=
  ⟨"", "", "", "", "", "", "", "", "", "", "", ""⟩

/-- The package-level variables read from the environment at start-up:
`GCP_PROJECT`, `TOPIC_NAME` and `SNS_ARN`. -/
structure Config where
  projectID : String
  topicName : String
  expectedTopicArn : String
  deriving DecidableEq, Repr

/-- A Go `map[string]string`, kept as an association list with distinct keys
in order of first assignment. -/
abbrev StrMap := List (String × String)

/-- The statement `m[k] = v`: overwrite the entry for `k` or add one. -/
def StrMap.set : StrMap → String → String → StrMap
  | [], k, v => [(k, v)]
  | (k', v') :: rest, k, v =>
    if k' = k then (k, v) :: rest else (k', v') :: StrMap.set rest k v

/-- The expression `m[k]` with its presence flag. -/
def StrMap.get? : StrMap → String → Option String
  | [], _ => none
  | (k', v') :: rest, k => if k' = k then some v' else StrMap.get? rest k

/-- The fields of `pubsub.Message` that the handler fills in. -/
structure Message where
  Data : ByteArray
  Attributes : StrMap

/-- The part of `*http.Request` the handler reads: the method and the result
of `ioutil.ReadAll(r.Body)`, which is the body or a read error. -/
structure Request where
  Method : String
  Body : Except String ByteArray

/-- What lies outside the repository.
* `unmarshal data` is `json.Unmarshal(data, &message)`: the filled record or
  the error text.
* `unicodeLower` is the case table behind `unicode.ToLower` above ASCII.
* `newRequest method url` is the error of `http.NewRequest(method, url, nil)`,
  `none` when the request was built.
* `clientDo method url` is `client.Do(req)`: the response status code or the
  transport error.
* `publish topic m` is `client.Topic(topic).Publish(ctx, m).Get(ctx)`: the
  assigned message id or the error. -/
structure Env where
  unmarshal : ByteArray → Except String publishRequest
  unicodeLower : Char → Char
  newRequest : String → String → Option String
  clientDo : String → String → Except String Nat
  publish : String → Message → Except String String

/-- One observable action of the handler. -/
inductive Effect where
  | log (line : String)
  | httpDo (method url : String)
  | publish (topic : String) (m : Message)

/-- The outcome of one invocation: the `http.Error(w, body, code)` call, if
one was made, and the actions in the order they happened. -/
structure Result where
  written : Option (Nat × String)
  trace : List Effect

/-! ## Go standard library functions used by the handler -/

/-- The constant `http.MethodPost`. -/
abbrev MethodPost : String := "POST"

/-- The constant `http.StatusOK`. -/
abbrev StatusOK : Nat := 200
/-- The constant `http.StatusBadRequest`. -/
abbrev StatusBadRequest : Nat := 400
/-- The constant `http.StatusForbidden`. -/
abbrev StatusForbidden : Nat := 403
/-- The constant `http.StatusMethodNotAllowed`. -/
abbrev StatusMethodNotAllowed : Nat := 405
/-- The constant `http.StatusInternalServerError`. -/
abbrev StatusInternalServerError : Nat := 500

/-- Go `unicode.IsSpace`: in Latin-1 the characters tab, line feed, vertical
tab, form feed, carriage return, space, U+0085 and U+00A0; above Latin-1 the
table `White_Space`. -/
def IsSpace (c : Char) : Bool :=
  let n := c.toNat
  if n ≤ 0xFF then
    n == 0x09 || n == 0x0A || n == 0x0B || n == 0x0C || n == 0x0D || n == 0x20
      || n == 0x85 || n == 0xA0
  else
    n == 0x1680 || (0x2000 ≤ n && n ≤ 0x200A) || n == 0x2028 || n == 0x2029
      || n == 0x202F || n == 0x205F || n == 0x3000

/-- Go `strings.TrimSpace`: the string without its leading and trailing white
space, white space being `unicode.IsSpace`. -/
def TrimSpace (s : String) : String :=
  ⟨(s.data.dropWhile IsSpace).rdropWhile IsSpace⟩

/-- Go `unicode.ToLower` on one rune: ASCII letters directly, any other rune
through the case table. -/
def runeToLower (table : Char → Char) (c : Char) : Char :=
  if c.toNat < 0x80 then
    (if 0x41 ≤ c.toNat ∧ c.toNat ≤ 0x5A then Char.ofNat (c.toNat + 0x20) else c)
  else table c

/-- Go `strings.ToLower`: every rune mapped to its lower case. -/
def ToLower (table : Char → Char) (s : String) : String :=
  ⟨s.data.map (runeToLower table)⟩

/-- The text `fmt` prints for a nil `error` under the verb `%v`. -/
def nilError : String := "<nil>"

/-! ## The handler -/

/-- The handler `PublishSNSMessage` of `main.go`. -/
def PublishSNSMessage (cfg : Config) (env : Env) (r : Request) : Result :=
  match r.Body with
  | .error err =>
    ⟨some (StatusBadRequest, "error reading request"),
      [.log ("error reading request " ++ err)]⟩
  | .ok data =>
  match env.unmarshal data with
  | .error err =>
    ⟨some (StatusForbidden, "invalid SNS message"),
      [.log ("invalid SNS message: " ++ err)]⟩
  | .ok message =>
  if TrimSpace message.TopicArn ≠ TrimSpace cfg.expectedTopicArn then
    ⟨some (StatusForbidden, "invalid SNS topic"),
      [.log ("invalid SNS topic: " ++ nilError)]⟩
  else
  let t := ToLower env.unicodeLower message.Type_
  if t = "subscriptionconfirmation" then
    if r.Method ≠ MethodPost then
      ⟨some (StatusMethodNotAllowed, "error reading request"),
        [.log ("only POST method accepted, received " ++ r.Method)]⟩
    else
    match env.newRequest "GET" message.SubscribeURL with
    | some err =>
      ⟨some (StatusInternalServerError, "error creating request to confirm subscription"),
        [.log ("an error occurred: " ++ err)]⟩
    | none =>
    match env.clientDo "GET" message.SubscribeURL with
    | .error err =>
      ⟨some (StatusInternalServerError, "an error occurred while confirming subscription"),
        [.httpDo "GET" message.SubscribeURL,
         .log ("an error occurred while confirming subscription: " ++ err)]⟩
    | .ok code =>
    if code ≠ StatusOK then
      ⟨some (StatusInternalServerError, "confirming subscription failed"),
        [.httpDo "GET" message.SubscribeURL,
         .log ("confirming subscription failed: " ++ nilError)]⟩
    else
      ⟨none,
        [.httpDo "GET" message.SubscribeURL,
         .log ("subscription confirmed through " ++ message.SubscribeURL)]⟩
  else if t = "notification" then
    if r.Method ≠ MethodPost then
      ⟨some (StatusMethodNotAllowed, "error reading request"),
        [.log ("only POST method accepted, received " ++ r.Method)]⟩
    else
    let attributes : StrMap := []
    let attributes := attributes.set "snsMessageId" message.MessageID
    let attributes := attributes.set "snsSubject" message.Subject
    let m : Message := ⟨message.Message.toUTF8, attributes⟩
    let line := "messageID " ++ message.MessageID ++ " : Message " ++ message.Message
    match env.publish cfg.topicName m with
    | .error err =>
      ⟨some (StatusInternalServerError, "Error publishing message"),
        [.log line, .publish cfg.topicName m,
         .log ("error publishing message in topic " ++ cfg.topicName ++ ": " ++ err)]⟩
    | .ok id =>
      ⟨none, [.log line, .publish cfg.topicName m, .log ("Published msg: " ++ id)]⟩
  else
    ⟨some (StatusBadRequest, "an error happened"),
      [.log ("it should not get here ..: " ++ nilError)]⟩

/-! ## Observations on an outcome -/

/-- The status code the client receives: the one passed to `http.Error`, or
200 when the handler returns without writing. -/
def Result.status (res : Result) : Nat :=
  match res.written with
  | some (code, _) => code
  | none => StatusOK

/-- The log lines of a trace, in order. -/
def logLines : List Effect → List String
  | [] => []
  | .log l :: rest => l :: logLines rest
  | _ :: rest => logLines rest

/-- The outbound HTTP requests of a trace, as (method, URL), in order. -/
def outboundRequests : List Effect → List (String × String)
  | [] => []
  | .httpDo m u :: rest => (m, u) :: outboundRequests rest
  | _ :: rest => outboundRequests rest

/-- The publishes of a trace, as (topic, message), in order. -/
def publishes : List Effect → List (String × Message)
  | [] => []
  | .publish t m :: rest => (t, m) :: publishes rest
  | _ :: rest => publishes rest

/-- The Pub/Sub message the notification branch builds from an envelope, with
the attribute map written out. -/
def relayed (message : publishRequest) : Message :=
  ⟨message.Message.toUTF8,
    [("snsMessageId", message.MessageID), ("snsSubject", message.Subject)]⟩

/-! ## Trimming, stated independently of `TrimSpace` -/

/-- The list `core` is `s` without its leading and trailing white space: `s`
is `core` between two runs of white space, and `core` neither starts nor ends
with a white space character.  Nothing inside `core` is touched. -/
def IsTrimOf (s core : List Char) : Prop :=
  ∃ l r, s = l ++ core ++ r ∧ (∀ c ∈ l, IsSpace c = true) ∧ (∀ c ∈ r, IsSpace c = true) ∧
    (∀ c, core.head? = some c → IsSpace c = false) ∧
    (∀ c, core.getLast? = some c → IsSpace c = false)

/-- ASCII white space: tab, line feed, vertical tab, form feed, carriage
return and space. -/
def isASCIISpace (c : Char) : Bool :=
  let n := c.toNat
  n == 0x09 || n == 0x0A || n == 0x0B || n == 0x0C || n == 0x0D || n == 0x20

/-- The trimming as the specification words it: leading and trailing ASCII
white space removed, and no other character. -/
def specTrimASCII (s : String) : String :=
  ⟨(s.data.dropWhile isASCIISpace).rdropWhile isASCIISpace⟩

/-! ## Fixtures: the end-to-end scenarios -/

/-- An environment whose oracles answer the same whatever they are asked; the
case table leaves every rune above ASCII unchanged. -/
def constEnv (dec : Except String publishRequest) (nr : Option String)
    (d : Except String Nat) (p : Except String String) : Env :=
  ⟨fun _ => dec, fun c => c, fun _ _ => nr, fun _ _ => d, fun _ _ => p⟩

/-- A request whose body was read in full. -/
def request (method body : String) : Request := ⟨method, .ok body.toUTF8⟩

/-- The configuration of the scenarios. -/
def scenarioConfig : Config :=
  ⟨"project", "events-in", "arn:aws:sns:us-east-1:123456789012:events"⟩

/-- Scenario 1, the handshake callback. -/
def handshakeBody : String :=
  "\x7b\"Type\":\"SubscriptionConfirmation\",\"TopicArn\":\"arn:aws:sns:us-east-1:123456789012:events\",\"SubscribeURL\":\"https://sns.example/confirm?token=abc\"\x7d"

/-- The envelope `handshakeBody` decodes to. -/
def handshakeEnvelope : publishRequest :=
  { publishRequest.zero with
    Type_ := "SubscriptionConfirmation"
    TopicArn := "arn:aws:sns:us-east-1:123456789012:events"
    SubscribeURL := "https://sns.example/confirm?token=abc" }

/-- Scenario 1: the confirmation URL answers 200. -/
def handshakeEnv : Env := constEnv (.ok handshakeEnvelope) none (.ok 200) (.ok "1")

/-- Scenario 2, the notification callback. -/
def notificationBody : String :=
  "\x7b\"Type\":\"Notification\",\"TopicArn\":\"arn:aws:sns:us-east-1:123456789012:events\",\"MessageId\":\"mid-1\",\"Subject\":\"hi\",\"Message\":\"hello world\"\x7d"

/-- The envelope `notificationBody` decodes to. -/
def notificationEnvelope : publishRequest :=
  { publishRequest.zero with
    Type_ := "Notification"
    TopicArn := "arn:aws:sns:us-east-1:123456789012:events"
    MessageID := "mid-1"
    Subject := "hi"
    Message := "hello world" }

/-- Scenario 2: the destination bus accepts the publish and assigns id `1`. -/
def notificationEnv : Env := constEnv (.ok notificationEnvelope) none (.ok 200) (.ok "1")

/-- Scenario 6: the destination bus answers the publish with an error. -/
def failingPublishEnv : Env :=
  constEnv (.ok notificationEnvelope) none (.ok 200) (.error "rpc error: code = Unavailable")

/-- Scenario 3, a callback from another topic. -/
def mismatchBody : String :=
  "\x7b\"Type\":\"Notification\",\"TopicArn\":\"arn:aws:sns:us-east-1:000000000000:other\",\"Message\":\"x\"\x7d"

/-- The envelope `mismatchBody` decodes to. -/
def mismatchEnvelope : publishRequest :=
  { publishRequest.zero with
    Type_ := "Notification"
    TopicArn := "arn:aws:sns:us-east-1:000000000000:other"
    Message := "x" }

/-- Scenario 3: the environment around the mismatching callback. -/
def mismatchEnv : Env := constEnv (.ok mismatchEnvelope) none (.ok 200) (.ok "1")

/-- Scenario 5, a callback of an unknown kind. -/
def unknownKindBody : String :=
  "\x7b\"Type\":\"UnsubscribeConfirmation\",\"TopicArn\":\"arn:aws:sns:us-east-1:123456789012:events\"\x7d"

/-- The envelope `unknownKindBody` decodes to. -/
def unknownKindEnvelope : publishRequest :=
  { publishRequest.zero with
    Type_ := "UnsubscribeConfirmation"
    TopicArn := "arn:aws:sns:us-east-1:123456789012:events" }

/-- Scenario 5: the environment around the unknown-kind callback. -/
def unknownKindEnv : Env := constEnv (.ok unknownKindEnvelope) none (.ok 200) (.ok "1")

/-- A body cut off after the first key: not JSON. -/
def truncatedBody : String := "\x7b\"Type\":"

/-- The decoder rejects `truncatedBody`. -/
def truncatedEnv : Env :=
  constEnv (.error "unexpected end of JSON input") none (.ok 200) (.ok "1")

/-- A deployment in which `SNS_ARN` is not set. -/
def unsetArnConfig : Config := ⟨"project", "events-in", ""⟩

/-- A notification without a `TopicArn` field. -/
def noArnBody : String :=
  "\x7b\"Type\":\"Notification\",\"MessageId\":\"mid-1\",\"Subject\":\"hi\",\"Message\":\"hello world\"\x7d"

/-- The envelope `noArnBody` decodes to: the missing field is empty. -/
def noArnEnvelope : publishRequest :=
  { publishRequest.zero with
    Type_ := "Notification"
    MessageID := "mid-1"
    Subject := "hi"
    Message := "hello world" }

/-- The environment around the callback without `TopicArn`. -/
def noArnEnv : Env := constEnv (.ok noArnEnvelope) none (.ok 200) (.ok "1")

/-- A notification whose `TopicArn` is the expected one preceded by a
no-break space, U+00A0, written as a JSON escape. -/
def nbspBody : String :=
  "\x7b\"Type\":\"Notification\",\"TopicArn\":\"\\u00a0arn:aws:sns:us-east-1:123456789012:events\",\"Message\":\"x\"\x7d"

/-- The envelope `nbspBody` decodes to. -/
def nbspEnvelope : publishRequest :=
  { publishRequest.zero with
    Type_ := "Notification"
    TopicArn := "\u00a0arn:aws:sns:us-east-1:123456789012:events"
    Message := "x" }

/-- The environment around the callback with the no-break space. -/
def nbspEnv : Env := constEnv (.ok nbspEnvelope) none (.ok 200) (.ok "1")

/-! ## Case analysis on the path taken -/

/-- Every outcome of the handler is the outcome of one of its twelve paths:
to prove a property of the outcome it is enough to prove it on each path,
under the conditions that select the path. -/
theorem PublishSNSMessage_paths (cfg : Config) (env : Env) (r : Request)
    (motive : Result → Prop)
    (readError : ∀ e, r.Body = .error e →
      motive ⟨some (StatusBadRequest, "error reading request"),
        [.log ("error reading request " ++ e)]⟩)
    (decodeError : ∀ data e, r.Body = .ok data → env.unmarshal data = .error e →
      motive ⟨some (StatusForbidden, "invalid SNS message"),
        [.log ("invalid SNS message: " ++ e)]⟩)
    (originRejected : ∀ data message, r.Body = .ok data → env.unmarshal data = .ok message →
      TrimSpace message.TopicArn ≠ TrimSpace cfg.expectedTopicArn →
      motive ⟨some (StatusForbidden, "invalid SNS topic"),
        [.log ("invalid SNS topic: " ++ nilError)]⟩)
    (confirmWrongMethod : ∀ data message, r.Body = .ok data →
      env.unmarshal data = .ok message →
      TrimSpace message.TopicArn = TrimSpace cfg.expectedTopicArn →
      ToLower env.unicodeLower message.Type_ = "subscriptionconfirmation" →
      r.Method ≠ MethodPost →
      motive ⟨some (StatusMethodNotAllowed, "error reading request"),
        [.log ("only POST method accepted, received " ++ r.Method)]⟩)
    (confirmNoRequest : ∀ data message e, r.Body = .ok data →
      env.unmarshal data = .ok message →
      TrimSpace message.TopicArn = TrimSpace cfg.expectedTopicArn →
      ToLower env.unicodeLower message.Type_ = "subscriptionconfirmation" →
      r.Method = MethodPost →
      env.newRequest "GET" message.SubscribeURL = some e →
      motive ⟨some (StatusInternalServerError,
          "error creating request to confirm subscription"),
        [.log ("an error occurred: " ++ e)]⟩)
    (confirmTransport : ∀ data message e, r.Body = .ok data →
      env.unmarshal data = .ok message →
      TrimSpace message.TopicArn = TrimSpace cfg.expectedTopicArn →
      ToLower env.unicodeLower message.Type_ = "subscriptionconfirmation" →
      r.Method = MethodPost →
      env.newRequest "GET" message.SubscribeURL = none →
      env.clientDo "GET" message.SubscribeURL = .error e →
      motive ⟨some (StatusInternalServerError,
          "an error occurred while confirming subscription"),
        [.httpDo "GET" message.SubscribeURL,
         .log ("an error occurred while confirming subscription: " ++ e)]⟩)
    (confirmBadStatus : ∀ data message code, r.Body = .ok data →
      env.unmarshal data = .ok message →
      TrimSpace message.TopicArn = TrimSpace cfg.expectedTopicArn →
      ToLower env.unicodeLower message.Type_ = "subscriptionconfirmation" →
      r.Method = MethodPost →
      env.newRequest "GET" message.SubscribeURL = none →
      env.clientDo "GET" message.SubscribeURL = .ok code → code ≠ StatusOK →
      motive ⟨some (StatusInternalServerError, "confirming subscription failed"),
        [.httpDo "GET" message.SubscribeURL,
         .log ("confirming subscription failed: " ++ nilError)]⟩)
    (confirmed : ∀ data message, r.Body = .ok data →
      env.unmarshal data = .ok message →
      TrimSpace message.TopicArn = TrimSpace cfg.expectedTopicArn →
      ToLower env.unicodeLower message.Type_ = "subscriptionconfirmation" →
      r.Method = MethodPost →
      env.newRequest "GET" message.SubscribeURL = none →
      env.clientDo "GET" message.SubscribeURL = .ok StatusOK →
      motive ⟨none,
        [.httpDo "GET" message.SubscribeURL,
         .log ("subscription confirmed through " ++ message.SubscribeURL)]⟩)
    (notifyWrongMethod : ∀ data message, r.Body = .ok data →
      env.unmarshal data = .ok message →
      TrimSpace message.TopicArn = TrimSpace cfg.expectedTopicArn →
      ToLower env.unicodeLower message.Type_ = "notification" →
      r.Method ≠ MethodPost →
      motive ⟨some (StatusMethodNotAllowed, "error reading request"),
        [.log ("only POST method accepted, received " ++ r.Method)]⟩)
    (publishError : ∀ data message e, r.Body = .ok data →
      env.unmarshal data = .ok message →
      TrimSpace message.TopicArn = TrimSpace cfg.expectedTopicArn →
      ToLower env.unicodeLower message.Type_ = "notification" →
      r.Method = MethodPost →
      env.publish cfg.topicName (relayed message) = .error e →
      motive ⟨some (StatusInternalServerError, "Error publishing message"),
        [.log ("messageID " ++ message.MessageID ++ " : Message " ++ message.Message),
         .publish cfg.topicName (relayed message),
         .log ("error publishing message in topic " ++ cfg.topicName ++ ": " ++ e)]⟩)
    (published : ∀ data message id, r.Body = .ok data →
      env.unmarshal data = .ok message →
      TrimSpace message.TopicArn = TrimSpace cfg.expectedTopicArn →
      ToLower env.unicodeLower message.Type_ = "notification" →
      r.Method = MethodPost →
      env.publish cfg.topicName (relayed message) = .ok id →
      motive ⟨none,
        [.log ("messageID " ++ message.MessageID ++ " : Message " ++ message.Message),
         .publish cfg.topicName (relayed message),
         .log ("Published msg: " ++ id)]⟩)
    (unknownKind : ∀ data message, r.Body = .ok data →
      env.unmarshal data = .ok message →
      TrimSpace message.TopicArn = TrimSpace cfg.expectedTopicArn →
      ToLower env.unicodeLower message.Type_ ≠ "subscriptionconfirmation" →
      ToLower env.unicodeLower message.Type_ ≠ "notification" →
      motive ⟨some (StatusBadRequest, "an error happened"),
        [.log ("it should not get here ..: " ++ nilError)]⟩) :
    motive (PublishSNSMessage cfg env r) := by
  cases hb : r.Body with
  | error e => simpa [PublishSNSMessage, hb] using readError e hb
  | ok data =>
  cases hd : env.unmarshal data with
  | error e => simpa [PublishSNSMessage, hb, hd] using decodeError data e hb hd
  | ok message =>
  by_cases hg : TrimSpace message.TopicArn = TrimSpace cfg.expectedTopicArn
  swap
  · simpa [PublishSNSMessage, hb, hd, hg] using originRejected data message hb hd hg
  by_cases hm : r.Method = MethodPost
  · by_cases h1 : ToLower env.unicodeLower message.Type_ = "subscriptionconfirmation"
    · cases hn : env.newRequest "GET" message.SubscribeURL with
      | some e =>
        simpa [PublishSNSMessage, hb, hd, hg, h1, hm, hn] using
          confirmNoRequest data message e hb hd hg h1 hm hn
      | none =>
      cases hc : env.clientDo "GET" message.SubscribeURL with
      | error e =>
        simpa [PublishSNSMessage, hb, hd, hg, h1, hm, hn, hc] using
          confirmTransport data message e hb hd hg h1 hm hn hc
      | ok code =>
      by_cases hs : code = StatusOK
      · subst hs
        simpa [PublishSNSMessage, hb, hd, hg, h1, hm, hn, hc] using
          confirmed data message hb hd hg h1 hm hn hc
      · simpa [PublishSNSMessage, hb, hd, hg, h1, hm, hn, hc, hs] using
          confirmBadStatus data message code hb hd hg h1 hm hn hc hs
    · by_cases h2 : ToLower env.unicodeLower message.Type_ = "notification"
      · cases hp : env.publish cfg.topicName (relayed message) with
        | error e =>
          have hp' := hp
          simp only [relayed] at hp'
          simpa [PublishSNSMessage, hb, hd, hg, h2, hm, hp', relayed, StrMap.set] using
            publishError data message e hb hd hg h2 hm hp
        | ok id =>
          have hp' := hp
          simp only [relayed] at hp'
          simpa [PublishSNSMessage, hb, hd, hg, h2, hm, hp', relayed, StrMap.set] using
            published data message id hb hd hg h2 hm hp
      · simpa [PublishSNSMessage, hb, hd, hg, h1, h2] using
          unknownKind data message hb hd hg h1 h2
  · by_cases h1 : ToLower env.unicodeLower message.Type_ = "subscriptionconfirmation"
    · simpa [PublishSNSMessage, hb, hd, hg, h1, hm] using
        confirmWrongMethod data message hb hd hg h1 hm
    · by_cases h2 : ToLower env.unicodeLower message.Type_ = "notification"
      · simpa [PublishSNSMessage, hb, hd, hg, h2, hm] using
          notifyWrongMethod data message hb hd hg h2 hm
      · simpa [PublishSNSMessage, hb, hd, hg, h1, h2] using
          unknownKind data message hb hd hg h1 h2


/-! ## Lemmas on trimming -/

/-- A trailing run of characters satisfying `p` does not survive `rdropWhile`. -/
theorem rdropWhile_append_of_pos {α : Type} (p : α → Bool) (core r : List α)
    (hr : ∀ c ∈ r, p c = true) : (core ++ r).rdropWhile p = core.rdropWhile p := by
  have hr' : ∀ c ∈ r.reverse, p c = true := fun c hc => hr c (List.mem_reverse.mp hc)
  simp [List.rdropWhile, List.reverse_append, List.dropWhile_append_of_pos hr']

/-- A list is what `rdropWhile` keeps followed by what `rtakeWhile` takes. -/
theorem rdropWhile_append_rtakeWhile {α : Type} (p : α → Bool) (l : List α) :
    l.rdropWhile p ++ l.rtakeWhile p = l := by
  have h := congrArg List.reverse (List.takeWhile_append_dropWhile p l.reverse)
  rw [List.reverse_append, List.reverse_reverse] at h
  exact h

/-- Dropping from both ends recovers the core of any decomposition into a
run of `p`, a core that neither starts nor ends with `p`, and a run of `p`. -/
theorem trim_unique {α : Type} (p : α → Bool) (l core r : List α)
    (hl : ∀ c ∈ l, p c = true) (hr : ∀ c ∈ r, p c = true)
    (hh : ∀ c, core.head? = some c → p c = false)
    (ht : ∀ c, core.getLast? = some c → p c = false) :
    ((l ++ core ++ r).dropWhile p).rdropWhile p = core := by
  rw [List.append_assoc, List.dropWhile_append_of_pos hl]
  cases core with
  | nil =>
    have : List.dropWhile p r = [] := List.dropWhile_eq_nil_iff.mpr hr
    simp [this]
  | cons a t =>
    have ha : p a = false := hh a rfl
    rw [List.cons_append, List.dropWhile_cons_of_neg (by simp [ha]), ← List.cons_append,
      rdropWhile_append_of_pos p _ r hr, List.rdropWhile_eq_self_iff]
    intro hne
    have := ht ((a :: t).getLast hne) (List.getLast?_eq_getLast _ hne)
    simp [this]

/-- Dropping from both ends yields such a decomposition. -/
theorem trim_exists {α : Type} (p : α → Bool) (s : List α) :
    ∃ l r, s = l ++ (s.dropWhile p).rdropWhile p ++ r ∧ (∀ c ∈ l, p c = true) ∧
      (∀ c ∈ r, p c = true) ∧
      (∀ c, ((s.dropWhile p).rdropWhile p).head? = some c → p c = false) ∧
      (∀ c, ((s.dropWhile p).rdropWhile p).getLast? = some c → p c = false) := by
  refine ⟨s.takeWhile p, (s.dropWhile p).rtakeWhile p, ?_, ?_, ?_, ?_, ?_⟩
  · rw [List.append_assoc, rdropWhile_append_rtakeWhile, List.takeWhile_append_dropWhile]
  · intro c hc
    exact List.mem_takeWhile_imp hc
  · intro c hc
    exact List.mem_rtakeWhile_imp hc
  · intro c hc
    obtain ⟨t, ht⟩ := List.rdropWhile_prefix p (l := s.dropWhile p)
    have hd : (s.dropWhile p).head? = some c := by
      rw [← ht]
      cases hcore : List.rdropWhile p (s.dropWhile p) with
      | nil => simp [hcore] at hc
      | cons a u => simp [hcore] at hc ⊢; exact hc
    have := List.head?_dropWhile_not p s
    rw [hd] at this
    simpa using this
  · intro c hc
    have hne : List.rdropWhile p (s.dropWhile p) ≠ [] := by
      intro h; simp [h] at hc
    have h := List.rdropWhile_last_not p (s.dropWhile p) hne
    rw [List.getLast?_eq_getLast _ hne] at hc
    cases hc
    simpa using h

/-- The string `TrimSpace s` is the one string that is `s` without its leading
and trailing white space. -/
theorem isTrimOf_iff (s : String) (core : List Char) :
    IsTrimOf s.data core ↔ core = (TrimSpace s).data := by
  constructor
  · rintro ⟨l, r, hs, hl, hr, hh, ht⟩
    simp only [TrimSpace, hs]
    exact (trim_unique IsSpace l core r hl hr hh ht).symm
  · intro h
    subst h
    exact trim_exists IsSpace s.data

/-- Two strings have a common trimmed core exactly when `TrimSpace` maps them
to the same string. -/
theorem common_core_iff (a e : String) :
    (∃ core, IsTrimOf a.data core ∧ IsTrimOf e.data core) ↔ TrimSpace a = TrimSpace e := by
  constructor
  · rintro ⟨core, ha, he⟩
    have h1 := (isTrimOf_iff a core).mp ha
    have h2 := (isTrimOf_iff e core).mp he
    exact String.ext (h1.symm.trans h2)
  · intro h
    exact ⟨(TrimSpace a).data, (isTrimOf_iff a _).mpr rfl, (isTrimOf_iff e _).mpr (by rw [h])⟩

/-- A string free of white space is its own trimmed form. -/
theorem TrimSpace_of_no_space (s : String) (h : ∀ c ∈ s.data, IsSpace c = false) :
    TrimSpace s = s := by
  have hc : IsTrimOf s.data s.data := by
    refine ⟨[], [], by simp, by simp, by simp, ?_, ?_⟩
    · intro c hc
      exact h c (List.mem_of_mem_head? hc)
    · intro c hc
      exact h c (List.mem_of_mem_getLast? hc)
  exact String.ext ((isTrimOf_iff s s.data).mp hc).symm

/-- The handler answers with the origin rejection exactly when the trimmed
identifiers differ. -/
theorem origin_rejection_iff (cfg : Config) (env : Env) (r : Request)
    (data : ByteArray) (message : publishRequest)
    (hbody : r.Body = .ok data) (hdec : env.unmarshal data = .ok message) :
    (PublishSNSMessage cfg env r).written = some (403, "invalid SNS topic") ↔
      TrimSpace message.TopicArn ≠ TrimSpace cfg.expectedTopicArn := by
  apply PublishSNSMessage_paths cfg env r (fun res =>
    res.written = some (403, "invalid SNS topic") ↔
      TrimSpace message.TopicArn ≠ TrimSpace cfg.expectedTopicArn)
  all_goals intros
  all_goals simp_all

/-! ## The origin gate -/

/-- Claim C1. A request whose body decodes to an envelope whose trimmed
`TopicArn` differs from the trimmed `expectedTopicArn` is answered 403, and
the handler makes no outbound request and no publish, whatever the method,
the `Type` and the other fields are. -/
theorem origin_mismatch_forbidden (cfg : Config) (env : Env) (r : Request)
    (data : ByteArray) (message : publishRequest)
    (hbody : r.Body = .ok data) (hdec : env.unmarshal data = .ok message)
    (hne : TrimSpace message.TopicArn ≠ TrimSpace cfg.expectedTopicArn) :
    (PublishSNSMessage cfg env r).status = 403 ∧
      outboundRequests (PublishSNSMessage cfg env r).trace = [] ∧
      publishes (PublishSNSMessage cfg env r).trace = [] := by
  simp [PublishSNSMessage, hbody, hdec, hne, Result.status, outboundRequests, publishes]

/-- Claim C1 at scenario 3: the callback from another topic. -/
theorem origin_mismatch_forbidden_witness :
    TrimSpace mismatchEnvelope.TopicArn ≠ TrimSpace scenarioConfig.expectedTopicArn ∧
      (PublishSNSMessage scenarioConfig mismatchEnv (request "POST" mismatchBody)).status = 403 ∧
      outboundRequests
        (PublishSNSMessage scenarioConfig mismatchEnv (request "POST" mismatchBody)).trace = [] ∧
      publishes
        (PublishSNSMessage scenarioConfig mismatchEnv (request "POST" mismatchBody)).trace = [] :=
  ⟨by decide,
    origin_mismatch_forbidden scenarioConfig mismatchEnv (request "POST" mismatchBody)
      mismatchBody.toUTF8 mismatchEnvelope rfl rfl (by decide)⟩

/-! ## The notification relay -/

/-- Claim C2. For an accepted notification (the body decodes, the trimmed
identifiers agree, the method is POST, `Type` lowercases to `notification`)
whose publish succeeds, the handler issues exactly one publish, to
`topicName`, with `Data` the bytes of `Message` and `Attributes` the map with
the two entries `snsMessageId -> MessageID` and `snsSubject -> Subject` and
no other key; it makes no outbound request and answers 200. -/
theorem notification_relayed (cfg : Config) (env : Env) (r : Request)
    (data : ByteArray) (message : publishRequest)
    (hbody : r.Body = .ok data) (hdec : env.unmarshal data = .ok message)
    (hgate : TrimSpace message.TopicArn = TrimSpace cfg.expectedTopicArn)
    (hmethod : r.Method = "POST")
    (hkind : ToLower env.unicodeLower message.Type_ = "notification")
    (hpub : ∀ t m, (t, m) ∈ publishes (PublishSNSMessage cfg env r).trace →
      ∃ id, env.publish t m = .ok id) :
    publishes (PublishSNSMessage cfg env r).trace =
        [(cfg.topicName,
          ⟨message.Message.toUTF8,
            [("snsMessageId", message.MessageID), ("snsSubject", message.Subject)]⟩)] ∧
      (∀ t m, (t, m) ∈ publishes (PublishSNSMessage cfg env r).trace →
        ∀ k, m.Attributes.get? k =
          if k = "snsMessageId" then some message.MessageID
          else if k = "snsSubject" then some message.Subject else none) ∧
      outboundRequests (PublishSNSMessage cfg env r).trace = [] ∧
      (PublishSNSMessage cfg env r).status = 200 := by
  have hattr : StrMap.set (StrMap.set [] "snsMessageId" message.MessageID) "snsSubject"
      message.Subject = [("snsMessageId", message.MessageID), ("snsSubject", message.Subject)] := by
    simp [StrMap.set]
  have hget : ∀ k, StrMap.get?
      [("snsMessageId", message.MessageID), ("snsSubject", message.Subject)] k =
        if k = "snsMessageId" then some message.MessageID
        else if k = "snsSubject" then some message.Subject else none := by
    intro k
    simp only [StrMap.get?]
    by_cases h1 : k = "snsMessageId"
    · simp [h1]
    · by_cases h2 : k = "snsSubject"
      · subst h2; simp
      · simp [h1, h2, Ne.symm h1, Ne.symm h2, eq_comm]
  cases hp : env.publish cfg.topicName
      ⟨message.Message.toUTF8,
        [("snsMessageId", message.MessageID), ("snsSubject", message.Subject)]⟩ with
  | error e =>
    exfalso
    obtain ⟨id, hid⟩ := hpub cfg.topicName
      ⟨message.Message.toUTF8,
        [("snsMessageId", message.MessageID), ("snsSubject", message.Subject)]⟩
      (by simp [PublishSNSMessage, hbody, hdec, hgate, hmethod, hkind, hattr, hp, publishes])
    rw [hp] at hid
    cases hid
  | ok id =>
    have hres : PublishSNSMessage cfg env r =
        ⟨none, [.log ("messageID " ++ message.MessageID ++ " : Message " ++ message.Message),
          .publish cfg.topicName ⟨message.Message.toUTF8,
            [("snsMessageId", message.MessageID), ("snsSubject", message.Subject)]⟩,
          .log ("Published msg: " ++ id)]⟩ := by
      simp [PublishSNSMessage, hbody, hdec, hgate, hmethod, hkind, hattr, hp]
    rw [hres]
    refine ⟨by simp [publishes], ?_, by simp [outboundRequests], by simp [Result.status]⟩
    intro t m hmem k
    simp [publishes] at hmem
    rw [hmem.2]
    exact hget k

/-- Claim C2 at scenario 2: one publish to `events-in` carrying `hello world`
with attributes `mid-1` and `hi`, and status 200. -/
theorem notification_relayed_witness :
    publishes
        (PublishSNSMessage scenarioConfig notificationEnv (request "POST" notificationBody)).trace =
        [("events-in",
          ⟨"hello world".toUTF8, [("snsMessageId", "mid-1"), ("snsSubject", "hi")]⟩)] ∧
      (PublishSNSMessage scenarioConfig notificationEnv
        (request "POST" notificationBody)).status = 200 :=
  have h := notification_relayed scenarioConfig notificationEnv
    (request "POST" notificationBody) notificationBody.toUTF8 notificationEnvelope rfl rfl
    (by decide) rfl (by decide) (fun _ _ _ => ⟨"1", rfl⟩)
  ⟨h.1, h.2.2.2⟩

/-! ## Decode failure -/

/-- Claim C3, refuted as stated: the truncated body fails to decode and the
answer is 403 with the text `invalid SNS message`, not 400. -/
theorem decode_failure_status_not_400 :
    truncatedEnv.unmarshal truncatedBody.toUTF8 = .error "unexpected end of JSON input" ∧
      (PublishSNSMessage scenarioConfig truncatedEnv (request "POST" truncatedBody)).written =
        some (403, "invalid SNS message") ∧
      (PublishSNSMessage scenarioConfig truncatedEnv (request "POST" truncatedBody)).status = 403 ∧
      (PublishSNSMessage scenarioConfig truncatedEnv (request "POST" truncatedBody)).status ≠ 400 :=
  ⟨rfl, by decide, by decide, by decide⟩

/-- Claim C3, amended. A request whose body fails JSON decoding is answered
403 (the handler passes `http.StatusForbidden`) with the text
`invalid SNS message`; the handler makes no outbound request and no publish,
and all it does besides answering is to log the decoder's error once. -/
theorem decode_failure_forbidden (cfg : Config) (env : Env) (r : Request)
    (data : ByteArray) (err : String)
    (hbody : r.Body = .ok data) (hdec : env.unmarshal data = .error err) :
    (PublishSNSMessage cfg env r).written = some (403, "invalid SNS message") ∧
      (PublishSNSMessage cfg env r).status = 403 ∧
      outboundRequests (PublishSNSMessage cfg env r).trace = [] ∧
      publishes (PublishSNSMessage cfg env r).trace = [] ∧
      (PublishSNSMessage cfg env r).trace = [.log ("invalid SNS message: " ++ err)] := by
  simp [PublishSNSMessage, hbody, hdec, Result.status, outboundRequests, publishes]

/-- Claim C3, amended, at the truncated body. -/
theorem decode_failure_forbidden_witness :
    truncatedEnv.unmarshal truncatedBody.toUTF8 = .error "unexpected end of JSON input" ∧
      (PublishSNSMessage scenarioConfig truncatedEnv (request "GET" truncatedBody)).written =
        some (403, "invalid SNS message") ∧
      (PublishSNSMessage scenarioConfig truncatedEnv (request "GET" truncatedBody)).status = 403 ∧
      outboundRequests
        (PublishSNSMessage scenarioConfig truncatedEnv (request "GET" truncatedBody)).trace = [] ∧
      publishes
        (PublishSNSMessage scenarioConfig truncatedEnv (request "GET" truncatedBody)).trace = [] ∧
      (PublishSNSMessage scenarioConfig truncatedEnv (request "GET" truncatedBody)).trace =
        [.log "invalid SNS message: unexpected end of JSON input"] :=
  ⟨rfl,
    decode_failure_forbidden scenarioConfig truncatedEnv (request "GET" truncatedBody)
      truncatedBody.toUTF8 "unexpected end of JSON input" rfl rfl⟩

/-! ## The handshake -/

/-- Claim C4. For a request that passes the decoder and the origin gate, with
method POST and `Type` lowercasing to `subscriptionconfirmation`: the answer
is 200 exactly when the GET to `SubscribeURL` was built, completed without a
transport error and returned status 200; otherwise the answer is 500; the
handler never publishes, and its only outbound request, if any, is that GET. -/
theorem handshake_status (cfg : Config) (env : Env) (r : Request)
    (data : ByteArray) (message : publishRequest)
    (hbody : r.Body = .ok data) (hdec : env.unmarshal data = .ok message)
    (hgate : TrimSpace message.TopicArn = TrimSpace cfg.expectedTopicArn)
    (hmethod : r.Method = "POST")
    (hkind : ToLower env.unicodeLower message.Type_ = "subscriptionconfirmation") :
    ((PublishSNSMessage cfg env r).status = 200 ↔
        (env.newRequest "GET" message.SubscribeURL = none ∧
          env.clientDo "GET" message.SubscribeURL = .ok 200)) ∧
      ((PublishSNSMessage cfg env r).status ≠ 200 →
        (PublishSNSMessage cfg env r).status = 500) ∧
      publishes (PublishSNSMessage cfg env r).trace = [] ∧
      outboundRequests (PublishSNSMessage cfg env r).trace =
        (if env.newRequest "GET" message.SubscribeURL = none
          then [("GET", message.SubscribeURL)] else []) := by
  cases hn : env.newRequest "GET" message.SubscribeURL with
  | some e =>
    simp [PublishSNSMessage, hbody, hdec, hgate, hmethod, hkind, hn, Result.status,
      outboundRequests, publishes]
  | none =>
    cases hc : env.clientDo "GET" message.SubscribeURL with
    | error e =>
      simp [PublishSNSMessage, hbody, hdec, hgate, hmethod, hkind, hn, hc, Result.status,
        outboundRequests, publishes]
    | ok code =>
      by_cases hs : code = 200
      · subst hs
        simp [PublishSNSMessage, hbody, hdec, hgate, hmethod, hkind, hn, hc, Result.status,
          outboundRequests, publishes]
      · simp [PublishSNSMessage, hbody, hdec, hgate, hmethod, hkind, hn, hc, hs, Result.status,
          outboundRequests, publishes]

/-- Claim C4 at scenario 1: the confirmation URL answers 200, so does the
handler, after one GET and no publish. -/
theorem handshake_status_witness :
    (PublishSNSMessage scenarioConfig handshakeEnv (request "POST" handshakeBody)).status = 200 ∧
      publishes
        (PublishSNSMessage scenarioConfig handshakeEnv (request "POST" handshakeBody)).trace = [] ∧
      outboundRequests
        (PublishSNSMessage scenarioConfig handshakeEnv (request "POST" handshakeBody)).trace =
        [("GET", "https://sns.example/confirm?token=abc")] :=
  have h := handshake_status scenarioConfig handshakeEnv (request "POST" handshakeBody)
    handshakeBody.toUTF8 handshakeEnvelope rfl rfl (by decide) rfl (by decide)
  ⟨h.1.mpr ⟨rfl, rfl⟩, h.2.2.1, h.2.2.2⟩

/-! ## Method and kind dispatch -/

/-- Claim C5. For a request that passes the decoder and the origin gate,
whose `Type` lowercases to `subscriptionconfirmation` or `notification` and
whose method is not POST, the answer is 405 and the handler makes no
outbound request and no publish. -/
theorem wrong_method_not_allowed (cfg : Config) (env : Env) (r : Request)
    (data : ByteArray) (message : publishRequest)
    (hbody : r.Body = .ok data) (hdec : env.unmarshal data = .ok message)
    (hgate : TrimSpace message.TopicArn = TrimSpace cfg.expectedTopicArn)
    (hkind : ToLower env.unicodeLower message.Type_ = "subscriptionconfirmation" ∨
      ToLower env.unicodeLower message.Type_ = "notification")
    (hmethod : r.Method ≠ "POST") :
    (PublishSNSMessage cfg env r).status = 405 ∧
      outboundRequests (PublishSNSMessage cfg env r).trace = [] ∧
      publishes (PublishSNSMessage cfg env r).trace = [] := by
  rcases hkind with hk | hk <;>
  simp [PublishSNSMessage, hbody, hdec, hgate, hk, hmethod, Result.status,
    outboundRequests, publishes]

/-- Claim C5 at scenario 4: the notification of scenario 2 sent with GET. -/
theorem wrong_method_not_allowed_witness :
    (request "GET" notificationBody).Method ≠ "POST" ∧
      (PublishSNSMessage scenarioConfig notificationEnv
        (request "GET" notificationBody)).status = 405 ∧
      outboundRequests
        (PublishSNSMessage scenarioConfig notificationEnv
          (request "GET" notificationBody)).trace = [] ∧
      publishes
        (PublishSNSMessage scenarioConfig notificationEnv
          (request "GET" notificationBody)).trace = [] :=
  ⟨by decide,
    wrong_method_not_allowed scenarioConfig notificationEnv (request "GET" notificationBody)
      notificationBody.toUTF8 notificationEnvelope rfl rfl (by decide) (Or.inr (by decide))
      (by decide)⟩

/-- Claim C6. For a request that passes the decoder and the origin gate and
whose `Type`, lowercased, is neither `subscriptionconfirmation` nor
`notification`, the answer is 400 and the handler makes no outbound request
and no publish, whatever the method: nothing is assumed of `r.Method`, so an
unknown kind sent with another method than POST is answered 400, not 405. -/
theorem unknown_kind_bad_request (cfg : Config) (env : Env) (r : Request)
    (data : ByteArray) (message : publishRequest)
    (hbody : r.Body = .ok data) (hdec : env.unmarshal data = .ok message)
    (hgate : TrimSpace message.TopicArn = TrimSpace cfg.expectedTopicArn)
    (h1 : ToLower env.unicodeLower message.Type_ ≠ "subscriptionconfirmation")
    (h2 : ToLower env.unicodeLower message.Type_ ≠ "notification") :
    (PublishSNSMessage cfg env r).status = 400 ∧
      (PublishSNSMessage cfg env r).status ≠ 405 ∧
      outboundRequests (PublishSNSMessage cfg env r).trace = [] ∧
      publishes (PublishSNSMessage cfg env r).trace = [] := by
  simp [PublishSNSMessage, hbody, hdec, hgate, h1, h2, Result.status,
    outboundRequests, publishes]

/-- Claim C6 at scenario 5 sent with GET: unknown kind, method not POST,
status 400. -/
theorem unknown_kind_bad_request_witness :
    (request "GET" unknownKindBody).Method ≠ "POST" ∧
      (PublishSNSMessage scenarioConfig unknownKindEnv
        (request "GET" unknownKindBody)).status = 400 ∧
      (PublishSNSMessage scenarioConfig unknownKindEnv
        (request "GET" unknownKindBody)).status ≠ 405 ∧
      outboundRequests
        (PublishSNSMessage scenarioConfig unknownKindEnv
          (request "GET" unknownKindBody)).trace = [] ∧
      publishes
        (PublishSNSMessage scenarioConfig unknownKindEnv
          (request "GET" unknownKindBody)).trace = [] :=
  ⟨by decide,
    unknown_kind_bad_request scenarioConfig unknownKindEnv (request "GET" unknownKindBody)
      unknownKindBody.toUTF8 unknownKindEnvelope rfl rfl (by decide) (by decide) (by decide)⟩

/-! ## Publish failure -/

/-- Claim C7. For an accepted notification whose publish returns an error,
the answer is 500 and exactly one publish was attempted; and whatever the
configuration, the environment and the request, one invocation makes at most
one publish. -/
theorem publish_error_single_attempt (cfg : Config) (env : Env) (r : Request)
    (data : ByteArray) (message : publishRequest)
    (hbody : r.Body = .ok data) (hdec : env.unmarshal data = .ok message)
    (hgate : TrimSpace message.TopicArn = TrimSpace cfg.expectedTopicArn)
    (hmethod : r.Method = "POST")
    (hkind : ToLower env.unicodeLower message.Type_ = "notification")
    (hfail : ∀ t m, (t, m) ∈ publishes (PublishSNSMessage cfg env r).trace →
      ∃ e, env.publish t m = .error e) :
    (PublishSNSMessage cfg env r).status = 500 ∧
      (publishes (PublishSNSMessage cfg env r).trace).length = 1 ∧
      ∀ (cfg' : Config) (env' : Env) (r' : Request),
        (publishes (PublishSNSMessage cfg' env' r').trace).length ≤ 1 := by
  refine ⟨?_, ?_, ?_⟩
  · cases hp : env.publish cfg.topicName (relayed message) with
    | error e =>
      simp only [relayed] at hp
      simp [PublishSNSMessage, hbody, hdec, hgate, hmethod, hkind, hp, StrMap.set,
        Result.status]
    | ok id =>
      exfalso
      obtain ⟨e, he⟩ := hfail cfg.topicName (relayed message) (by
        simp only [relayed] at hp
        simp [PublishSNSMessage, hbody, hdec, hgate, hmethod, hkind, hp, StrMap.set,
          publishes, relayed])
      rw [hp] at he
      cases he
  · cases hp : env.publish cfg.topicName (relayed message) <;>
    · simp only [relayed] at hp
      simp [PublishSNSMessage, hbody, hdec, hgate, hmethod, hkind, hp, StrMap.set, publishes]
  · intro cfg' env' r'
    apply PublishSNSMessage_paths cfg' env' r' (fun res => (publishes res.trace).length ≤ 1)
    all_goals intros
    all_goals simp [publishes]

/-- Claim C7 at scenario 6: the destination bus refuses the publish. -/
theorem publish_error_single_attempt_witness :
    (PublishSNSMessage scenarioConfig failingPublishEnv
        (request "POST" notificationBody)).status = 500 ∧
      (publishes (PublishSNSMessage scenarioConfig failingPublishEnv
        (request "POST" notificationBody)).trace).length = 1 :=
  have h := publish_error_single_attempt scenarioConfig failingPublishEnv
    (request "POST" notificationBody) notificationBody.toUTF8 notificationEnvelope rfl rfl
    (by decide) rfl (by decide) (fun _ _ _ => ⟨"rpc error: code = Unavailable", rfl⟩)
  ⟨h.1, h.2.1⟩

/-! ## An empty expected identifier -/

/-- Claim C8, the handler at the failing input: with `SNS_ARN` unset, a POST
notification that carries no `TopicArn` is not rejected by the origin gate;
it is published to the destination topic and answered 200, where the claim,
and the comment on the gate, ask for 403 and no outbound call. -/
theorem unset_arn_relays_empty_topic :
    unsetArnConfig.expectedTopicArn = "" ∧ noArnEnvelope.TopicArn = "" ∧
      (PublishSNSMessage unsetArnConfig noArnEnv (request "POST" noArnBody)).written = none ∧
      (PublishSNSMessage unsetArnConfig noArnEnv (request "POST" noArnBody)).status = 200 ∧
      (PublishSNSMessage unsetArnConfig noArnEnv (request "POST" noArnBody)).status ≠ 403 ∧
      publishes (PublishSNSMessage unsetArnConfig noArnEnv (request "POST" noArnBody)).trace =
        [("events-in",
          ⟨"hello world".toUTF8, [("snsMessageId", "mid-1"), ("snsSubject", "hi")]⟩)] :=
  ⟨rfl, rfl, by decide, by decide, by decide, rfl⟩

/-! ## Log lines -/

/-- Claim C9, refuted as stated: the relayed notification of scenario 2 ends
in success with two log lines, and the refused publish of scenario 6 ends in
status 500 with two log lines. -/
theorem notification_logs_twice :
    (PublishSNSMessage scenarioConfig notificationEnv
        (request "POST" notificationBody)).status = 200 ∧
      logLines (PublishSNSMessage scenarioConfig notificationEnv
        (request "POST" notificationBody)).trace =
        ["messageID mid-1 : Message hello world", "Published msg: 1"] ∧
      (PublishSNSMessage scenarioConfig failingPublishEnv
        (request "POST" notificationBody)).status = 500 ∧
      logLines (PublishSNSMessage scenarioConfig failingPublishEnv
        (request "POST" notificationBody)).trace =
        ["messageID mid-1 : Message hello world",
          "error publishing message in topic events-in: rpc error: code = Unavailable"] :=
  ⟨by decide, by decide, by decide, by decide⟩

/-- Claim C9, amended. Every path emits exactly one log line, except the
path of an accepted POST notification, which emits two.  On that path the
whole trace is: the line with the message id and the message, then the
publish, then one line for its result, which is the publish-error line
naming the topic and the error (status 500) or the line naming the assigned
id (status 200).  A request that ends in success was decoded, and its trace
is either the GET followed by the single line naming the confirmation URL
(handshake) or the three-step trace of a relayed notification. -/
theorem log_lines_per_path (cfg : Config) (env : Env) (r : Request) :
    ((logLines (PublishSNSMessage cfg env r).trace).length = 1 ∨
        (logLines (PublishSNSMessage cfg env r).trace).length = 2) ∧
      ((logLines (PublishSNSMessage cfg env r).trace).length = 2 ↔
        ∃ data message, r.Body = .ok data ∧ env.unmarshal data = .ok message ∧
          TrimSpace message.TopicArn = TrimSpace cfg.expectedTopicArn ∧
          ToLower env.unicodeLower message.Type_ = "notification" ∧ r.Method = "POST") ∧
      (∀ data message, r.Body = .ok data → env.unmarshal data = .ok message →
        TrimSpace message.TopicArn = TrimSpace cfg.expectedTopicArn →
        ToLower env.unicodeLower message.Type_ = "notification" → r.Method = "POST" →
        (∃ e, env.publish cfg.topicName
              ⟨message.Message.toUTF8,
                [("snsMessageId", message.MessageID), ("snsSubject", message.Subject)]⟩ =
                .error e ∧
            (PublishSNSMessage cfg env r).status = 500 ∧
            (PublishSNSMessage cfg env r).trace =
              [.log ("messageID " ++ message.MessageID ++ " : Message " ++ message.Message),
                .publish cfg.topicName
                  ⟨message.Message.toUTF8,
                    [("snsMessageId", message.MessageID), ("snsSubject", message.Subject)]⟩,
                .log ("error publishing message in topic " ++ cfg.topicName ++ ": " ++ e)]) ∨
          (∃ id, env.publish cfg.topicName
              ⟨message.Message.toUTF8,
                [("snsMessageId", message.MessageID), ("snsSubject", message.Subject)]⟩ =
                .ok id ∧
            (PublishSNSMessage cfg env r).status = 200 ∧
            (PublishSNSMessage cfg env r).trace =
              [.log ("messageID " ++ message.MessageID ++ " : Message " ++ message.Message),
                .publish cfg.topicName
                  ⟨message.Message.toUTF8,
                    [("snsMessageId", message.MessageID), ("snsSubject", message.Subject)]⟩,
                .log ("Published msg: " ++ id)])) ∧
      ((PublishSNSMessage cfg env r).status = 200 →
        ∃ data message, r.Body = .ok data ∧ env.unmarshal data = .ok message ∧
          ((PublishSNSMessage cfg env r).trace =
              [.httpDo "GET" message.SubscribeURL,
                .log ("subscription confirmed through " ++ message.SubscribeURL)] ∨
            ∃ id, env.publish cfg.topicName
                ⟨message.Message.toUTF8,
                  [("snsMessageId", message.MessageID), ("snsSubject", message.Subject)]⟩ =
                  .ok id ∧
              (PublishSNSMessage cfg env r).trace =
                [.log ("messageID " ++ message.MessageID ++ " : Message " ++ message.Message),
                  .publish cfg.topicName
                    ⟨message.Message.toUTF8,
                      [("snsMessageId", message.MessageID), ("snsSubject", message.Subject)]⟩,
                  .log ("Published msg: " ++ id)])) := by
  have hnotify : ∀ data message, r.Body = .ok data → env.unmarshal data = .ok message →
      TrimSpace message.TopicArn = TrimSpace cfg.expectedTopicArn →
      ToLower env.unicodeLower message.Type_ = "notification" → r.Method = "POST" →
      (∃ e, env.publish cfg.topicName (relayed message) = .error e ∧
          (PublishSNSMessage cfg env r).status = 500 ∧
          (PublishSNSMessage cfg env r).trace =
            [.log ("messageID " ++ message.MessageID ++ " : Message " ++ message.Message),
              .publish cfg.topicName (relayed message),
              .log ("error publishing message in topic " ++ cfg.topicName ++ ": " ++ e)]) ∨
        (∃ id, env.publish cfg.topicName (relayed message) = .ok id ∧
          (PublishSNSMessage cfg env r).status = 200 ∧
          (PublishSNSMessage cfg env r).trace =
            [.log ("messageID " ++ message.MessageID ++ " : Message " ++ message.Message),
              .publish cfg.topicName (relayed message),
              .log ("Published msg: " ++ id)]) := by
    intro data message hb hd hg hk hm
    cases hp : env.publish cfg.topicName (relayed message) with
    | error e =>
      left
      simp only [relayed] at hp
      simp [PublishSNSMessage, hb, hd, hg, hk, hm, hp, StrMap.set, Result.status, relayed]
    | ok id =>
      right
      simp only [relayed] at hp
      simp [PublishSNSMessage, hb, hd, hg, hk, hm, hp, StrMap.set, Result.status, relayed]
  have hrest : ((logLines (PublishSNSMessage cfg env r).trace).length = 1 ∨
        (logLines (PublishSNSMessage cfg env r).trace).length = 2) ∧
      ((logLines (PublishSNSMessage cfg env r).trace).length = 2 ↔
        ∃ data message, r.Body = .ok data ∧ env.unmarshal data = .ok message ∧
          TrimSpace message.TopicArn = TrimSpace cfg.expectedTopicArn ∧
          ToLower env.unicodeLower message.Type_ = "notification" ∧ r.Method = "POST") ∧
      ((PublishSNSMessage cfg env r).status = 200 →
        ∃ data message, r.Body = .ok data ∧ env.unmarshal data = .ok message ∧
          ((PublishSNSMessage cfg env r).trace =
              [.httpDo "GET" message.SubscribeURL,
                .log ("subscription confirmed through " ++ message.SubscribeURL)] ∨
            ∃ id, env.publish cfg.topicName (relayed message) = .ok id ∧
              (PublishSNSMessage cfg env r).trace =
                [.log ("messageID " ++ message.MessageID ++ " : Message " ++ message.Message),
                  .publish cfg.topicName (relayed message),
                  .log ("Published msg: " ++ id)])) := by
    apply PublishSNSMessage_paths cfg env r (fun res =>
      ((logLines res.trace).length = 1 ∨ (logLines res.trace).length = 2) ∧
        ((logLines res.trace).length = 2 ↔
          ∃ data message, r.Body = .ok data ∧ env.unmarshal data = .ok message ∧
            TrimSpace message.TopicArn = TrimSpace cfg.expectedTopicArn ∧
            ToLower env.unicodeLower message.Type_ = "notification" ∧ r.Method = "POST") ∧
        (res.status = 200 →
          ∃ data message, r.Body = .ok data ∧ env.unmarshal data = .ok message ∧
            (res.trace =
                [.httpDo "GET" message.SubscribeURL,
                  .log ("subscription confirmed through " ++ message.SubscribeURL)] ∨
              ∃ id, env.publish cfg.topicName (relayed message) = .ok id ∧
                res.trace =
                  [.log ("messageID " ++ message.MessageID ++ " : Message " ++
                      message.Message),
                    .publish cfg.topicName (relayed message),
                    .log ("Published msg: " ++ id)])))
    all_goals intros
    all_goals simp_all [logLines, Result.status]
  exact ⟨hrest.1, hrest.2.1, hnotify, hrest.2.2⟩

/-- Claim C9, amended, at scenario 6: the refused publish is answered 500
after the message line, the publish and the publish-error line, in that
order; and at scenario 1: the trace of the confirmed handshake is the GET
and the one line naming the confirmation URL. -/
theorem log_lines_per_path_witness :
    (∃ e, failingPublishEnv.publish "events-in"
          ⟨"hello world".toUTF8, [("snsMessageId", "mid-1"), ("snsSubject", "hi")]⟩ =
            .error e ∧
        (PublishSNSMessage scenarioConfig failingPublishEnv
          (request "POST" notificationBody)).status = 500 ∧
        (PublishSNSMessage scenarioConfig failingPublishEnv
          (request "POST" notificationBody)).trace =
          [.log "messageID mid-1 : Message hello world",
            .publish "events-in"
              ⟨"hello world".toUTF8, [("snsMessageId", "mid-1"), ("snsSubject", "hi")]⟩,
            .log ("error publishing message in topic events-in: " ++ e)]) ∧
      ∃ data message, (request "POST" handshakeBody).Body = .ok data ∧
        handshakeEnv.unmarshal data = .ok message ∧
        ((PublishSNSMessage scenarioConfig handshakeEnv (request "POST" handshakeBody)).trace =
            [.httpDo "GET" message.SubscribeURL,
              .log ("subscription confirmed through " ++ message.SubscribeURL)] ∨
          ∃ id, handshakeEnv.publish "events-in"
              ⟨message.Message.toUTF8,
                [("snsMessageId", message.MessageID), ("snsSubject", message.Subject)]⟩ =
                .ok id ∧
            (PublishSNSMessage scenarioConfig handshakeEnv (request "POST" handshakeBody)).trace =
              [.log ("messageID " ++ message.MessageID ++ " : Message " ++ message.Message),
                .publish "events-in"
                  ⟨message.Message.toUTF8,
                    [("snsMessageId", message.MessageID), ("snsSubject", message.Subject)]⟩,
                .log ("Published msg: " ++ id)]) := by
  refine ⟨?_, ?_⟩
  · rcases (log_lines_per_path scenarioConfig failingPublishEnv
        (request "POST" notificationBody)).2.2.1 notificationBody.toUTF8 notificationEnvelope
        rfl rfl (by decide) (by decide) rfl with h | ⟨id, hid, _⟩
    · exact h
    · exact absurd hid (by simp [failingPublishEnv, constEnv])
  · exact (log_lines_per_path scenarioConfig handshakeEnv
      (request "POST" handshakeBody)).2.2.2 (by decide)

/-! ## What the origin gate trims -/

/-- Claim C10, refuted as stated: a `TopicArn` that differs from the expected
identifier only by a leading no-break space (U+00A0, not ASCII) differs from
it after ASCII trimming, and yet passes the origin gate and is relayed. -/
theorem origin_gate_accepts_nbsp :
    specTrimASCII nbspEnvelope.TopicArn ≠ specTrimASCII scenarioConfig.expectedTopicArn ∧
      (PublishSNSMessage scenarioConfig nbspEnv (request "POST" nbspBody)).status = 200 ∧
      (publishes
        (PublishSNSMessage scenarioConfig nbspEnv (request "POST" nbspBody)).trace).length = 1 :=
  ⟨by decide, by decide, by decide⟩

/-- Claim C10, amended. The origin gate accepts a decoded envelope exactly
when `TopicArn` and `expectedTopicArn` have the same core after removing
leading and trailing Unicode white space (`unicode.IsSpace`: the six ASCII
characters and U+0085, U+00A0, U+1680, U+2000 to U+200A, U+2028, U+2029,
U+202F, U+205F, U+3000) from both; the core is a contiguous piece of the
original, so nothing inside is altered; and no case folding is applied: two
identifiers free of white space are accepted only when they are equal. -/
theorem origin_gate_unicode_trim (cfg : Config) (env : Env) (r : Request)
    (data : ByteArray) (message : publishRequest)
    (hbody : r.Body = .ok data) (hdec : env.unmarshal data = .ok message) :
    ((PublishSNSMessage cfg env r).written ≠ some (403, "invalid SNS topic") ↔
        ∃ core, IsTrimOf message.TopicArn.data core ∧
          IsTrimOf cfg.expectedTopicArn.data core) ∧
      ((∀ c ∈ message.TopicArn.data, IsSpace c = false) →
        (∀ c ∈ cfg.expectedTopicArn.data, IsSpace c = false) →
        ((PublishSNSMessage cfg env r).written ≠ some (403, "invalid SNS topic") ↔
          message.TopicArn = cfg.expectedTopicArn)) := by
  have hrej := origin_rejection_iff cfg env r data message hbody hdec
  have hacc : (PublishSNSMessage cfg env r).written ≠ some (403, "invalid SNS topic") ↔
      TrimSpace message.TopicArn = TrimSpace cfg.expectedTopicArn := by
    rw [Ne, hrej, not_not]
  refine ⟨?_, ?_⟩
  · rw [hacc, common_core_iff]
  · intro ha he
    rw [hacc, TrimSpace_of_no_space _ ha, TrimSpace_of_no_space _ he]

/-- Claim C10, amended, at the no-break space: the two identifiers share the
core `arn:aws:sns:us-east-1:123456789012:events`, so the gate accepts. -/
theorem origin_gate_unicode_trim_witness :
    (PublishSNSMessage scenarioConfig nbspEnv (request "POST" nbspBody)).written ≠
        some (403, "invalid SNS topic") ∧
      ∃ core, IsTrimOf nbspEnvelope.TopicArn.data core ∧
        IsTrimOf scenarioConfig.expectedTopicArn.data core :=
  have h := (origin_gate_unicode_trim scenarioConfig nbspEnv (request "POST" nbspBody)
    nbspBody.toUTF8 nbspEnvelope rfl rfl).1
  ⟨by decide, h.mp (by decide)⟩

end PubSubSNS
